import Mathlib

/-!
# niro-backend: confidential-field storage layer, shallow embedding

This file embeds the core of the niro-backend CRM in Lean 4 and proves the
frozen specification claims about it.

Conventions of the embedding:

* Machine bytes are `Nat` values below 256; byte strings are `List Nat`.
  A Rust `&str` is modelled as its UTF-8 byte sequence; `isValidUtf8`
  characterises exactly the byte lists that arise from strings, so Rust's
  `String::from_utf8(v).ok()` becomes `if isValidUtf8 v then some v else none`.
* The ChaCha20-Poly1305 AEAD used by `src/utils/encrypt.rs` (an external
  crate) is implemented concretely following RFC 8439, so that every theorem
  is about a real executable cipher.  The random 96-bit nonce that
  `encrypt_value` samples from `OsRng` is passed as an explicit argument.
* The HMAC-SHA256 blind index of `hash_value` is implemented concretely
  following FIPS 180-4 and RFC 2104.
* The Postgres database is modelled as an explicit record of tables
  (lists of rows); SQL `fetch_optional` is `List.find?` in insertion order,
  `fetch_one` on a missing row is a runtime error.  Timestamp columns
  (`handle_at`) and the argon2 password digest (external crate, salted with
  process randomness) are not claim-relevant and are omitted from the rows.
* Rust `Result` plus the possibility of a panic (`unwrap` on `None`,
  `Nonce::from_slice` on a wrong-sized slice, `parse().unwrap()` on a stored
  enum string) is modelled by `Outcome`: `ok`, `errs` (an `anyhow` error) or
  `panicked`.  Mutating operations return the database next to the outcome,
  so that writes performed before a failure persist, exactly as statements
  already executed against the pool do in the source.
-/

/-- The result of running a Rust function: a success, an `anyhow` error
carrying its message, or a panic (`unwrap` on `None`, a failed slice
conversion, a failed `parse().unwrap()`). -/
inductive Outcome (α : Type) where
  | ok : α → Outcome α
  | errs : String → Outcome α
  | panicked : Outcome α
deriving DecidableEq, Repr

/-- 32-bit left rotation (operands below `2 ^ 32`). -/
def rotl32 (x n : Nat) : Nat :=
  ((x <<< n) % 2 ^ 32) ||| (x >>> (32 - n))

/-- 32-bit modular addition. -/
def add32 (a b : Nat) : Nat := (a + b) % 2 ^ 32

/-- The 16-word ChaCha20 state (RFC 8439 section 2.3), one field per
word so that the kernel evaluates the cipher efficiently. -/
structure ChachaSt where
  y0 : Nat
  y1 : Nat
  y2 : Nat
  y3 : Nat
  y4 : Nat
  y5 : Nat
  y6 : Nat
  y7 : Nat
  y8 : Nat
  y9 : Nat
  y10 : Nat
  y11 : Nat
  y12 : Nat
  y13 : Nat
  y14 : Nat
  y15 : Nat
deriving DecidableEq, Repr

/-- The ChaCha20 quarter round on four words (RFC 8439 section 2.1). -/
def qr (a0 b0 c0 d0 : Nat) : Nat × Nat × Nat × Nat :=
  let a := add32 a0 b0
  let d := rotl32 (d0 ^^^ a) 16
  let c := add32 c0 d
  let b := rotl32 (b0 ^^^ c) 12
  let a := add32 a b
  let d := rotl32 (d ^^^ a) 8
  let c := add32 c d
  let b := rotl32 (b ^^^ c) 7
  (a, b, c, d)

/-- One ChaCha20 double round: the four column quarter rounds
(0,4,8,12) (1,5,9,13) (2,6,10,14) (3,7,11,15) followed by the four
diagonal quarter rounds (0,5,10,15) (1,6,11,12) (2,7,8,13) (3,4,9,14). -/
def doubleRound (s : ChachaSt) : ChachaSt :=
  let (a0, a4, a8, a12) := qr s.y0 s.y4 s.y8 s.y12
  let (a1, a5, a9, a13) := qr s.y1 s.y5 s.y9 s.y13
  let (a2, a6, a10, a14) := qr s.y2 s.y6 s.y10 s.y14
  let (a3, a7, a11, a15) := qr s.y3 s.y7 s.y11 s.y15
  let (b0, b5, b10, b15) := qr a0 a5 a10 a15
  let (b1, b6, b11, b12) := qr a1 a6 a11 a12
  let (b2, b7, b8, b13) := qr a2 a7 a8 a13
  let (b3, b4, b9, b14) := qr a3 a4 a9 a14
  ⟨b0, b1, b2, b3, b4, b5, b6, b7, b8, b9, b10, b11, b12, b13, b14, b15⟩

/-- Ten double rounds (the 20 rounds of ChaCha20). -/
def chachaRounds (s : ChachaSt) : ChachaSt :=
  doubleRound^[10] s

/-- The little-endian 32-bit word at byte offset `i`. -/
def leWordAt (l : List Nat) (i : Nat) : Nat :=
  l.getD i 0 + 256 * l.getD (i + 1) 0 + 65536 * l.getD (i + 2) 0 +
    16777216 * l.getD (i + 3) 0

/-- The initial ChaCha20 state: constants, 256-bit key, 32-bit counter,
96-bit nonce (RFC 8439 section 2.3). -/
def chachaInit (key : List Nat) (counter : Nat) (nonce : List Nat) : ChachaSt :=
  ⟨1634760805, 857760878, 2036477234, 1797285236,
   leWordAt key 0, leWordAt key 4, leWordAt key 8, leWordAt key 12,
   leWordAt key 16, leWordAt key 20, leWordAt key 24, leWordAt key 28,
   counter % 2 ^ 32, leWordAt nonce 0, leWordAt nonce 4, leWordAt nonce 8⟩

/-- Word-wise 32-bit modular addition of two states. -/
def addSt (s t : ChachaSt) : ChachaSt :=
  ⟨add32 s.y0 t.y0, add32 s.y1 t.y1, add32 s.y2 t.y2, add32 s.y3 t.y3,
   add32 s.y4 t.y4, add32 s.y5 t.y5, add32 s.y6 t.y6, add32 s.y7 t.y7,
   add32 s.y8 t.y8, add32 s.y9 t.y9, add32 s.y10 t.y10, add32 s.y11 t.y11,
   add32 s.y12 t.y12, add32 s.y13 t.y13, add32 s.y14 t.y14, add32 s.y15 t.y15⟩

/-- The four little-endian bytes of a 32-bit word. -/
def bytes4 (w : Nat) : List Nat :=
  [w % 256, w / 256 % 256, w / 65536 % 256, w / 16777216 % 256]

/-- The 64-byte ChaCha20 block for a key, block counter and nonce. -/
def chachaBlock (key : List Nat) (counter : Nat) (nonce : List Nat) : List Nat :=
  let s := chachaInit key counter nonce
  let z := addSt (chachaRounds s) s
  bytes4 z.y0 ++ bytes4 z.y1 ++ bytes4 z.y2 ++ bytes4 z.y3 ++
    bytes4 z.y4 ++ bytes4 z.y5 ++ bytes4 z.y6 ++ bytes4 z.y7 ++
    bytes4 z.y8 ++ bytes4 z.y9 ++ bytes4 z.y10 ++ bytes4 z.y11 ++
    bytes4 z.y12 ++ bytes4 z.y13 ++ bytes4 z.y14 ++ bytes4 z.y15

/-- Concatenation of `n` consecutive ChaCha20 blocks starting at `counter`. -/
def keystreamBlocks (key nonce : List Nat) (counter : Nat) : Nat → List Nat
  | 0 => []
  | n + 1 => chachaBlock key counter nonce ++ keystreamBlocks key nonce (counter + 1) n

/-- The ChaCha20 encryption keystream of length `len`, block counter starting
at 1 (RFC 8439 section 2.4). -/
def chachaKeystream (key nonce : List Nat) (len : Nat) : List Nat :=
  (keystreamBlocks key nonce 1 ((len + 63) / 64)).take len

/-- Byte-wise XOR of two byte strings. -/
def xorBytes (a b : List Nat) : List Nat :=
  List.zipWith (fun x y => x ^^^ y) a b

/-- Little-endian interpretation of a byte string as a number. -/
def leNum : List Nat → Nat
  | [] => 0
  | b :: rest => b + 256 * leNum rest

/-- The `n` little-endian bytes of `v`. -/
def natToLeBytes : Nat → Nat → List Nat
  | 0, _ => []
  | n + 1, v => v % 256 :: natToLeBytes n (v / 256)

/-- The Poly1305 prime `2 ^ 130 - 5`. -/
def polyP : Nat := 2 ^ 130 - 5

/-- Clamping of the Poly1305 `r` value (RFC 8439 section 2.5). -/
def clamp (r : Nat) : Nat := r &&& 21267647620597763993911028882763415551

/-- The Poly1305 accumulator loop over 16-byte chunks, structurally
recursive on a fuel argument so that the kernel can evaluate it; each step
consumes at least one byte, so fuel equal to the message length (as
`poly1305Blocks` supplies) never runs out. -/
def poly1305Go (r : Nat) : Nat → Nat → List Nat → Nat
  | _, acc, [] => acc
  | 0, acc, _ :: _ => acc
  | fuel + 1, acc, b :: rest =>
      poly1305Go r fuel
        ((acc + leNum ((b :: rest).take 16) + 2 ^ (8 * ((b :: rest).take 16).length)) * r % polyP)
        ((b :: rest).drop 16)

/-- The Poly1305 accumulator over the 16-byte chunks of the message
(RFC 8439 section 2.5). -/
def poly1305Blocks (r acc : Nat) (msg : List Nat) : Nat :=
  poly1305Go r msg.length acc msg

/-- The 16-byte Poly1305 tag of `msg` under the 32-byte one-time key. -/
def poly1305Tag (polyKey msg : List Nat) : List Nat :=
  natToLeBytes 16
    ((poly1305Blocks (clamp (leNum (polyKey.take 16))) 0 msg + leNum (polyKey.drop 16)) % 2 ^ 128)

/-- Zero padding of a chunk to the next 16-byte boundary. -/
def pad16 (l : List Nat) : List Nat :=
  List.replicate ((16 - l.length % 16) % 16) 0

/-- The byte string authenticated by the AEAD construction: associated data
and ciphertext, each zero-padded to 16 bytes, followed by their 64-bit
little-endian lengths (RFC 8439 section 2.8). -/
def aeadMacData (aad ct : List Nat) : List Nat :=
  aad ++ pad16 aad ++ ct ++ pad16 ct ++ natToLeBytes 8 aad.length ++ natToLeBytes 8 ct.length

/-- The Poly1305 one-time key: the first 32 bytes of the block at counter 0. -/
def polyKeyGen (key nonce : List Nat) : List Nat :=
  (chachaBlock key 0 nonce).take 32

/-- ChaCha20-Poly1305 encryption with empty associated data: the body is the
plaintext XOR the keystream, and the 16-byte tag is appended. -/
def aeadEncryptBytes (key nonce pt : List Nat) : List Nat :=
  let body := xorBytes pt (chachaKeystream key nonce pt.length)
  body ++ poly1305Tag (polyKeyGen key nonce) (aeadMacData [] body)

/-- ChaCha20-Poly1305 decryption with empty associated data: recompute the
tag over the ciphertext body and compare; on a match return the XOR
decryption, otherwise fail. -/
def aeadDecryptBytes (key nonce ct : List Nat) : Option (List Nat) :=
  if ct.length < 16 then none
  else
    let body := ct.take (ct.length - 16)
    let tag := ct.drop (ct.length - 16)
    if poly1305Tag (polyKeyGen key nonce) (aeadMacData [] body) = tag then
      some (xorBytes body (chachaKeystream key nonce body.length))
    else none

/-- UTF-8 validity of a byte string, following RFC 3629 exactly as Rust's
`core::str` validation does (the table of legal lead/continuation ranges,
rejecting overlongs, surrogates and code points above `0x10FFFF`). -/
def isValidUtf8 : List Nat → Bool
  | [] => true
  | b :: rest =>
    if b < 0x80 then isValidUtf8 rest
    else if 0xC2 ≤ b && b ≤ 0xDF then
      match rest with
      | c1 :: rest2 => 0x80 ≤ c1 && c1 ≤ 0xBF && isValidUtf8 rest2
      | [] => false
    else if b == 0xE0 then
      match rest with
      | c1 :: c2 :: rest2 =>
          0xA0 ≤ c1 && c1 ≤ 0xBF && (0x80 ≤ c2 && c2 ≤ 0xBF) && isValidUtf8 rest2
      | _ => false
    else if (0xE1 ≤ b && b ≤ 0xEC) || b == 0xEE || b == 0xEF then
      match rest with
      | c1 :: c2 :: rest2 =>
          0x80 ≤ c1 && c1 ≤ 0xBF && (0x80 ≤ c2 && c2 ≤ 0xBF) && isValidUtf8 rest2
      | _ => false
    else if b == 0xED then
      match rest with
      | c1 :: c2 :: rest2 =>
          0x80 ≤ c1 && c1 ≤ 0x9F && (0x80 ≤ c2 && c2 ≤ 0xBF) && isValidUtf8 rest2
      | _ => false
    else if b == 0xF0 then
      match rest with
      | c1 :: c2 :: c3 :: rest2 =>
          0x90 ≤ c1 && c1 ≤ 0xBF && (0x80 ≤ c2 && c2 ≤ 0xBF) &&
            (0x80 ≤ c3 && c3 ≤ 0xBF) && isValidUtf8 rest2
      | _ => false
    else if 0xF1 ≤ b && b ≤ 0xF3 then
      match rest with
      | c1 :: c2 :: c3 :: rest2 =>
          0x80 ≤ c1 && c1 ≤ 0xBF && (0x80 ≤ c2 && c2 ≤ 0xBF) &&
            (0x80 ≤ c3 && c3 ≤ 0xBF) && isValidUtf8 rest2
      | _ => false
    else if b == 0xF4 then
      match rest with
      | c1 :: c2 :: c3 :: rest2 =>
          0x80 ≤ c1 && c1 ≤ 0x8F && (0x80 ≤ c2 && c2 ≤ 0xBF) &&
            (0x80 ≤ c3 && c3 ≤ 0xBF) && isValidUtf8 rest2
      | _ => false
    else false

/-- `encrypt_value` from `src/utils/encrypt.rs`: authenticated encryption of
a plaintext string, returning the (ciphertext, nonce) pair.  The 96-bit
nonce, sampled from `OsRng` in the source, is the explicit `nonce` argument
here. -/
def encrypt_value (key nonce plaintext : List Nat) : List Nat × List Nat :=
  (aeadEncryptBytes key nonce plaintext, nonce)

/-- 32-bit right rotation (operand below `2 ^ 32`). -/
def rotr32 (x n : Nat) : Nat :=
  (x >>> n) ||| ((x <<< (32 - n)) % 2 ^ 32)

/-- The SHA-256 round constants (FIPS 180-4). -/
def shaK : List Nat :=
  [1116352408, 1899447441, 3049323471, 3921009573, 961987163,
   1508970993, 2453635748, 2870763221, 3624381080, 310598401,
   607225278, 1426881987, 1925078388, 2162078206, 2614888103,
   3248222580, 3835390401, 4022224774, 264347078, 604807628,
   770255983, 1249150122, 1555081692, 1996064986, 2554220882,
   2821834349, 2952996808, 3210313671, 3336571891, 3584528711,
   113926993, 338241895, 666307205, 773529912, 1294757372,
   1396182291, 1695183700, 1986661051, 2177026350, 2456956037,
   2730485921, 2820302411, 3259730800, 3345764771, 3516065817,
   3600352804, 4094571909, 275423344, 430227734, 506948616,
   659060556, 883997877, 958139571, 1322822218, 1537002063,
   1747873779, 1955562222, 2024104815, 2227730452, 2361852424,
   2428436474, 2756734187, 3204031479, 3329325298]

/-- The eight 32-bit working variables of SHA-256, one field per word. -/
structure ShaSt where
  v0 : Nat
  v1 : Nat
  v2 : Nat
  v3 : Nat
  v4 : Nat
  v5 : Nat
  v6 : Nat
  v7 : Nat
deriving DecidableEq, Repr

/-- The SHA-256 initial hash value. -/
def shaInitH : ShaSt :=
  ⟨1779033703, 3144134277, 1013904242, 2773480762,
   1359893119, 2600822924, 528734635, 1541459225⟩

/-- Big-endian 32-bit words from bytes, four bytes per word. -/
def beWords : List Nat → List Nat
  | b0 :: b1 :: b2 :: b3 :: rest =>
      (b3 + 256 * b2 + 65536 * b1 + 16777216 * b0) :: beWords rest
  | _ => []

/-- The four big-endian bytes of a 32-bit word. -/
def bytes4BE (w : Nat) : List Nat :=
  [w / 16777216 % 256, w / 65536 % 256, w / 256 % 256, w % 256]

/-- The eight big-endian bytes of a 64-bit value. -/
def beBytes8 (v : Nat) : List Nat :=
  [v / 2 ^ 56 % 256, v / 2 ^ 48 % 256, v / 2 ^ 40 % 256, v / 2 ^ 32 % 256,
   v / 2 ^ 24 % 256, v / 2 ^ 16 % 256, v / 2 ^ 8 % 256, v % 256]

/-- One extension step of the SHA-256 message schedule, on the reversed
schedule (newest word first, so the references `w[t-2]`, `w[t-7]`,
`w[t-15]`, `w[t-16]` are at positions 1, 6, 14 and 15). -/
def shaExtendRev (w : List Nat) : List Nat :=
  let w2 := w.getD 1 0
  let w15 := w.getD 14 0
  let s0 := rotr32 w15 7 ^^^ rotr32 w15 18 ^^^ (w15 >>> 3)
  let s1 := rotr32 w2 17 ^^^ rotr32 w2 19 ^^^ (w2 >>> 10)
  ((w.getD 15 0 + s0 + w.getD 6 0 + s1) % 2 ^ 32) :: w

/-- The 64-word SHA-256 message schedule of one 64-byte chunk. -/
def shaSchedule (chunk : List Nat) : List Nat :=
  (shaExtendRev^[48] (beWords chunk).reverse).reverse

/-- One SHA-256 compression round on the eight working variables. -/
def shaRound (s : ShaSt) (kw : Nat × Nat) : ShaSt :=
  let s1 := rotr32 s.v4 6 ^^^ rotr32 s.v4 11 ^^^ rotr32 s.v4 25
  let ch := (s.v4 &&& s.v5) ^^^ ((s.v4 ^^^ 0xffffffff) &&& s.v6)
  let t1 := (s.v7 + s1 + ch + kw.1 + kw.2) % 2 ^ 32
  let s0 := rotr32 s.v0 2 ^^^ rotr32 s.v0 13 ^^^ rotr32 s.v0 22
  let mj := (s.v0 &&& s.v1) ^^^ (s.v0 &&& s.v2) ^^^ (s.v1 &&& s.v2)
  let t2 := (s0 + mj) % 2 ^ 32
  ⟨(t1 + t2) % 2 ^ 32, s.v0, s.v1, s.v2, (s.v3 + t1) % 2 ^ 32, s.v4, s.v5, s.v6⟩

/-- SHA-256 compression of one 64-byte chunk into the running hash. -/
def shaCompress (hs : ShaSt) (chunk : List Nat) : ShaSt :=
  let z := (shaK.zip (shaSchedule chunk)).foldl shaRound hs
  ⟨add32 hs.v0 z.v0, add32 hs.v1 z.v1, add32 hs.v2 z.v2, add32 hs.v3 z.v3,
   add32 hs.v4 z.v4, add32 hs.v5 z.v5, add32 hs.v6 z.v6, add32 hs.v7 z.v7⟩

/-- SHA-256 padding: a `0x80` byte, zeros to 56 mod 64, then the 64-bit
big-endian bit length. -/
def shaPad (msg : List Nat) : List Nat :=
  msg ++ 0x80 :: List.replicate ((119 - msg.length % 64) % 64) 0 ++ beBytes8 (8 * msg.length)

/-- 64-byte chunking, structurally recursive on a fuel argument so that
the kernel can evaluate it; each step consumes at least one byte, so fuel
equal to the message length (as `shaChunks` supplies) never runs out. -/
def shaChunksGo : Nat → List Nat → List (List Nat)
  | _, [] => []
  | 0, _ :: _ => []
  | fuel + 1, b :: rest => ((b :: rest).take 64) :: shaChunksGo fuel ((b :: rest).drop 64)

/-- Splits a byte string into 64-byte chunks. -/
def shaChunks (msg : List Nat) : List (List Nat) :=
  shaChunksGo msg.length msg

/-- The SHA-256 digest (32 bytes) of a byte string (FIPS 180-4). -/
def sha256 (msg : List Nat) : List Nat :=
  let z := (shaChunks (shaPad msg)).foldl shaCompress shaInitH
  bytes4BE z.v0 ++ bytes4BE z.v1 ++ bytes4BE z.v2 ++ bytes4BE z.v3 ++
    bytes4BE z.v4 ++ bytes4BE z.v5 ++ bytes4BE z.v6 ++ bytes4BE z.v7

/-- HMAC-SHA256 (RFC 2104): the key is hashed when longer than the 64-byte
block, zero-padded, and used with the inner/outer pads. -/
def hmacSha256 (secret msg : List Nat) : List Nat :=
  let k0 := if 64 < secret.length then sha256 secret else secret
  let k1 := k0 ++ List.replicate (64 - k0.length) 0
  sha256 ((k1.map (fun b => b ^^^ 0x5c)) ++ sha256 ((k1.map (fun b => b ^^^ 0x36)) ++ msg))

/-- `hash_value` from `src/utils/encrypt.rs`: the deterministic HMAC-SHA256
blind index of a plaintext under the HMAC secret.  `new_from_slice` accepts
keys of every length for HMAC, so the `unwrap` in the source never fires. -/
def hash_value (secret value : List Nat) : List Nat :=
  hmacSha256 secret value

/-- `decrypt_value` from `src/utils/encrypt.rs`.  `Nonce::from_slice` panics
when the nonce slice is not exactly 12 bytes (modelled by
`Outcome.panicked`); otherwise a successful authenticated decryption is
passed through `String::from_utf8(...).ok()` and every failure — a bad tag
or invalid UTF-8 — yields the Rust `None`. -/
def decrypt_value (key ciphertext nonce : List Nat) : Outcome (Option (List Nat)) :=
  if nonce.length ≠ 12 then .panicked
  else
    match aeadDecryptBytes key nonce ciphertext with
    | some pt => .ok (if isValidUtf8 pt then some pt else none)
    | none => .ok none

/-- `UserRole` from `src/models/user.rs` (`Agent`, `Manager`, `Leader`,
with the derived order of declaration). -/
inductive UserRole where
  | Agent
  | Manager
  | Leader
deriving DecidableEq, Repr

/-- The discriminant underlying the derived `PartialOrd`/`Ord` on
`UserRole`: declaration order `Agent < Manager < Leader`. -/
def UserRole.rank : UserRole → Nat
  | .Agent => 0
  | .Manager => 1
  | .Leader => 2

/-- `impl From<String> for UserRole`: unrecognised stored strings fall back
to `Agent`. -/
def UserRole.fromString : String → UserRole
  | "Leader" => .Leader
  | "Manager" => .Manager
  | _ => .Agent

/-- `UserInfo` from `src/models/user_info.rs` (the fields `User::create`
and `User::modify_info` touch). -/
structure UserInfo where
  full_name : Option String := none
  phone_number : Option String := none
  hufa_code : Option String := none
  agent_code : Option String := none
deriving DecidableEq, Repr

/-- The `User` value object from `src/models/user.rs`. -/
structure User where
  id : Option Nat := none
  uuid : Option Nat := none
  email : Option String := none
  username : Option String := none
  info : UserInfo := {}
  password : Option String := none
  user_role : Option UserRole := none
  manager_uuid : Option Nat := none
deriving DecidableEq, Repr

/-- A row of the `users` table.  The argon2 password digest (external
crate, salted from `OsRng`) is not claim-relevant and is omitted. -/
structure UserRow where
  id : Nat
  uuid : Nat
  email : Option String
  username : Option String
  user_role : String
  manager_id : Option Nat
deriving DecidableEq, Repr

/-- A row of the `user_info` table. -/
structure UserInfoRow where
  user_id : Nat
  full_name : Option String
  phone_number : Option String
  hufa_code : Option String
  agent_code : Option String
deriving DecidableEq, Repr

/-- The `Customer` value object from `src/models/customer.rs`; sensitive
fields carry UTF-8 bytes. -/
structure Customer where
  id : Option Nat := none
  uuid : Option Nat := none
  full_name : Option String := none
  phone_number : Option (List Nat) := none
  email : Option (List Nat) := none
  address : Option (List Nat) := none
  comment : Option String := none
  user_id : Option Nat := none
  created_by : Option String := none
deriving DecidableEq, Repr

/-- A row of the `customers` table: ciphertext + nonce per sensitive field,
a blind-index hash per searchable field. -/
structure CustomerRow where
  id : Nat
  uuid : Nat
  full_name : Option String
  phone_number_enc : List Nat
  phone_number_nonce : List Nat
  phone_number_hash : List Nat
  email_enc : List Nat
  email_nonce : List Nat
  email_hash : List Nat
  address_enc : List Nat
  address_nonce : List Nat
  comment : Option String
  user_id : Nat
  created_by : Option String
deriving DecidableEq, Repr

/-- A row of the `customer_contracts` table (`handle_at` timestamps are not
claim-relevant and are omitted). -/
structure ContractRow where
  id : Nat
  uuid : Nat
  contract_number : String
  contract_type : String
  annual_fee : Int
  first_payment : Bool
  payment_frequency : String
  payment_method : String
  customer_id : Nat
  user_id : Nat
  created_by : String
deriving DecidableEq, Repr

/-- A row of the `customer_leads` table. -/
structure LeadRow where
  id : Nat
  uuid : Nat
  lead_type : String
  inquiry_type : String
  lead_status : String
  customer_id : Nat
  user_id : Nat
  created_by : String
deriving DecidableEq, Repr

/-- A row of the `customer_intervention_tasks` table
(`processing_deadline` is an abstract timestamp). -/
structure TaskRow where
  id : Nat
  uuid : Nat
  contract_number : String
  product_name : String
  outstanding_days : Int
  balance : Int
  processing_deadline : Option Nat
  comment : Option String
  status : String
  customer_id : Nat
  user_id : Nat
  created_by : String
deriving DecidableEq, Repr

/-- A row of the `recruitment` table; the blind-index hashes are nullable
because `Recruitment::modify` stores `NULL` for empty values. -/
structure RecruitmentRow where
  uuid : Nat
  full_name : Option String
  email_enc : List Nat
  email_nonce : List Nat
  email_hash : Option (List Nat)
  phone_number_enc : List Nat
  phone_number_nonce : List Nat
  phone_number_hash : Option (List Nat)
  description : Option String
  created_by : Option String
deriving DecidableEq, Repr

/-- The relational store: one list of rows per table, in insertion order,
plus the sequence that backs `RETURNING id` (also used for the generated
`uuid` column, kept in the same number space for simplicity). -/
structure DB where
  users : List UserRow := []
  user_infos : List UserInfoRow := []
  customers : List CustomerRow := []
  contracts : List ContractRow := []
  leads : List LeadRow := []
  tasks : List TaskRow := []
  recruitment : List RecruitmentRow := []
  next_id : Nat := 1
deriving DecidableEq, Repr

/-- SQL equality against a possibly-NULL parameter: `col = NULL` is never
true. -/
def sqlEqStr (col : Option String) (param : Option String) : Bool :=
  match col, param with
  | some a, some b => a == b
  | _, _ => false

/-- `ContractType` from `src/models/contract.rs`. -/
inductive ContractType where
  | BonusLifeProgram | LifeProgram | AllianzCareNow | HealthProgram
  | MyhomeHomeInsurance | MfoHomeInsurance | CorporatePropertyInsurance
  | Kgfb | Casco | TravelInsurance | CondominiumInsurance | AgriculturalInsurance
deriving DecidableEq, Repr

/-- The canonical string spelling produced by the derived `Display`
(strum): the variant name. -/
def ContractType.str : ContractType → String
  | .BonusLifeProgram => "BonusLifeProgram"
  | .LifeProgram => "LifeProgram"
  | .AllianzCareNow => "AllianzCareNow"
  | .HealthProgram => "HealthProgram"
  | .MyhomeHomeInsurance => "MyhomeHomeInsurance"
  | .MfoHomeInsurance => "MfoHomeInsurance"
  | .CorporatePropertyInsurance => "CorporatePropertyInsurance"
  | .Kgfb => "Kgfb"
  | .Casco => "Casco"
  | .TravelInsurance => "TravelInsurance"
  | .CondominiumInsurance => "CondominiumInsurance"
  | .AgriculturalInsurance => "AgriculturalInsurance"

/-- The derived `EnumString` (strum) `FromStr`: exact variant names only. -/
def ContractType.fromStr? : String → Option ContractType
  | "BonusLifeProgram" => some .BonusLifeProgram
  | "LifeProgram" => some .LifeProgram
  | "AllianzCareNow" => some .AllianzCareNow
  | "HealthProgram" => some .HealthProgram
  | "MyhomeHomeInsurance" => some .MyhomeHomeInsurance
  | "MfoHomeInsurance" => some .MfoHomeInsurance
  | "CorporatePropertyInsurance" => some .CorporatePropertyInsurance
  | "Kgfb" => some .Kgfb
  | "Casco" => some .Casco
  | "TravelInsurance" => some .TravelInsurance
  | "CondominiumInsurance" => some .CondominiumInsurance
  | "AgriculturalInsurance" => some .AgriculturalInsurance
  | _ => none

/-- `PaymentFrequency` from `src/models/contract.rs`. -/
inductive PaymentFrequency where
  | Monthly | Quarterly | Semiannual | Annual
deriving DecidableEq, Repr

/-- Canonical string spelling (strum `Display`). -/
def PaymentFrequency.str : PaymentFrequency → String
  | .Monthly => "Monthly"
  | .Quarterly => "Quarterly"
  | .Semiannual => "Semiannual"
  | .Annual => "Annual"

/-- strum `FromStr` for `PaymentFrequency`. -/
def PaymentFrequency.fromStr? : String → Option PaymentFrequency
  | "Monthly" => some .Monthly
  | "Quarterly" => some .Quarterly
  | "Semiannual" => some .Semiannual
  | "Annual" => some .Annual
  | _ => none

/-- `PaymentMethod` from `src/models/contract.rs`. -/
inductive PaymentMethod where
  | CreditCard | Transfer | DirectDebit | Check
deriving DecidableEq, Repr

/-- Canonical string spelling (strum `Display`). -/
def PaymentMethod.str : PaymentMethod → String
  | .CreditCard => "CreditCard"
  | .Transfer => "Transfer"
  | .DirectDebit => "DirectDebit"
  | .Check => "Check"

/-- strum `FromStr` for `PaymentMethod`. -/
def PaymentMethod.fromStr? : String → Option PaymentMethod
  | "CreditCard" => some .CreditCard
  | "Transfer" => some .Transfer
  | "DirectDebit" => some .DirectDebit
  | "Check" => some .Check
  | _ => none

/-- `LeadType` from `src/models/lead.rs`. -/
inductive LeadType where
  | Personal | Recommendation | Salesforce | RedLead | BlueLead
deriving DecidableEq, Repr

/-- Canonical string spelling (strum `Display`). -/
def LeadType.str : LeadType → String
  | .Personal => "Personal"
  | .Recommendation => "Recommendation"
  | .Salesforce => "Salesforce"
  | .RedLead => "RedLead"
  | .BlueLead => "BlueLead"

/-- `LeadStatus` from `src/models/lead.rs`. -/
inductive LeadStatus where
  | Opened | InProgress | Closed
deriving DecidableEq, Repr

/-- Canonical string spelling (strum `Display`). -/
def LeadStatus.str : LeadStatus → String
  | .Opened => "Opened"
  | .InProgress => "InProgress"
  | .Closed => "Closed"

/-- `InterventionTaskStatus` from `src/models/intervention_task.rs`. -/
inductive InterventionTaskStatus where
  | Pending | PaymentPromise | Processed | Nonpayment | PendingDeletion
deriving DecidableEq, Repr

/-- Canonical string spelling (strum `Display`). -/
def InterventionTaskStatus.str : InterventionTaskStatus → String
  | .Pending => "Pending"
  | .PaymentPromise => "PaymentPromise"
  | .Processed => "Processed"
  | .Nonpayment => "Nonpayment"
  | .PendingDeletion => "PendingDeletion"

/-- The `Contract` value object from `src/models/contract.rs`. -/
structure Contract where
  id : Option Nat := none
  uuid : Option Nat := none
  contract_number : Option String := none
  contract_type : Option ContractType := none
  annual_fee : Option Int := none
  first_payment : Option Bool := none
  payment_frequency : Option PaymentFrequency := none
  payment_method : Option PaymentMethod := none
  customer_id : Option Nat := none
  user_id : Option Nat := none
  created_by : Option String := none
deriving DecidableEq, Repr

/-- The `Lead` value object from `src/models/lead.rs`. -/
structure Lead where
  id : Option Nat := none
  uuid : Option Nat := none
  lead_type : Option LeadType := none
  inquiry_type : Option String := none
  lead_status : Option LeadStatus := none
  created_by : Option String := none
deriving DecidableEq, Repr

/-- The `InterventionTask` value object from
`src/models/intervention_task.rs`. -/
structure InterventionTask where
  id : Option Nat := none
  uuid : Option Nat := none
  contract_number : Option String := none
  product_name : Option String := none
  outstanding_days : Option Int := none
  balance : Option Int := none
  processing_deadline : Option Nat := none
  comment : Option String := none
  status : Option InterventionTaskStatus := none
  customer_id : Option Nat := none
  user_id : Option Nat := none
  created_by : Option String := none
deriving DecidableEq, Repr

/-- The `Recruitment` value object from `src/models/recruitment.rs`. -/
structure Recruitment where
  uuid : Option Nat := none
  full_name : Option String := none
  email : Option (List Nat) := none
  phone_number : Option (List Nat) := none
  description : Option String := none
  created_by : Option String := none
deriving DecidableEq, Repr

/-- The three fresh `OsRng` nonces one customer write consumes, in the
order the source samples them (email, phone, address). -/
structure CustomerNonces where
  email : List Nat
  phone : List Nat
  address : List Nat
deriving DecidableEq, Repr

/-- `User::get_id_by_uuid`: `fetch_optional` by uuid; a `NULL` parameter
matches no row. -/
def User.get_id_by_uuid (db : DB) (user_uuid : Option Nat) : Option Nat :=
  match user_uuid with
  | none => none
  | some u => (db.users.find? (fun r => r.uuid == u)).map (fun r => r.id)

/-- `User::get_role`: `fetch_one` by id (an error when the row is missing),
then the lenient `From<String>` parse. -/
def User.get_role (db : DB) (user_id : Nat) : Outcome UserRole :=
  match db.users.find? (fun r => r.id == user_id) with
  | none => .errs "RowNotFound"
  | some r => .ok (UserRole.fromString r.user_role)

/-- `User::require_role`: fetch the current role and succeed iff it is at
least `min_role` in the derived order. -/
def User.require_role (db : DB) (min_role : UserRole) (user_id : Nat) : Outcome Unit :=
  match User.get_role db user_id with
  | .ok user_role =>
      if min_role.rank ≤ user_role.rank then .ok ()
      else .errs "Ehez a folyamathoz nincs jogosultságod!"
  | .errs e => .errs e
  | .panicked => .panicked

/-- `User::is_exists`: any row with the same email or username. -/
def User.is_exists (db : DB) (user : User) : Bool :=
  (db.users.find? (fun r => sqlEqStr r.email user.email || sqlEqStr r.username user.username)).isSome

/-- `User::is_exists_by_id`. -/
def User.is_exists_by_id (db : DB) (user_id : Nat) : Bool :=
  (db.users.find? (fun r => r.id == user_id)).isSome

/-- `User::create`: duplicate check, `password.unwrap()` (a panic when
absent), then one transaction inserting the `users` row — whose role is
`"Agent"` when a manager uuid is present and `"Manager"` otherwise, and
whose `manager_id` is the resolution of that uuid — and the `user_info`
row. -/
def User.create (db : DB) (new_user : User) : Outcome Unit × DB :=
  if User.is_exists db new_user then
    (.errs "Ez az e-mail cím vagy felhasználónév már létezik.", db)
  else
    match new_user.password with
    | none => (.panicked, db)
    | some _pw =>
      let user_id := db.next_id
      let row : UserRow :=
        { id := user_id, uuid := user_id, email := new_user.email,
          username := new_user.username,
          user_role := if new_user.manager_uuid.isSome then "Agent" else "Manager",
          manager_id := User.get_id_by_uuid db new_user.manager_uuid }
      let inforow : UserInfoRow :=
        { user_id := user_id, full_name := new_user.info.full_name,
          phone_number := new_user.info.phone_number,
          hufa_code := new_user.info.hufa_code,
          agent_code := new_user.info.agent_code }
      (.ok (), { db with users := db.users ++ [row],
                         user_infos := db.user_infos ++ [inforow],
                         next_id := user_id + 1 })

/-- `User::modify_info`: `get_id_by_uuid(..).await?.unwrap()` — a panic
when the uuid resolves to no row — then a transaction updating the user
email and the profile row (`hufa_code`/`agent_code` through `COALESCE`). -/
def User.modify_info (db : DB) (user_uuid : Nat) (user : User) : Outcome Unit × DB :=
  match User.get_id_by_uuid db (some user_uuid) with
  | none => (.panicked, db)
  | some user_id =>
    if ¬ User.is_exists_by_id db user_id then (.errs "Invalid user_id", db)
    else
      let users := db.users.map (fun r =>
        if r.id == user_id then { r with email := user.email } else r)
      let infos := db.user_infos.map (fun i =>
        if i.user_id == user_id then
          { i with full_name := user.info.full_name,
                   phone_number := user.info.phone_number,
                   hufa_code := match user.info.hufa_code with
                                | some v => some v
                                | none => i.hufa_code,
                   agent_code := match user.info.agent_code with
                                 | some v => some v
                                 | none => i.agent_code }
        else i)
      (.ok (), { db with users := users, user_infos := infos })

/-- `User::delete`: the same `unwrap` on the uuid resolution, then the row
deletion. -/
def User.delete (db : DB) (user_uuid : Nat) : Outcome Unit × DB :=
  match User.get_id_by_uuid db (some user_uuid) with
  | none => (.panicked, db)
  | some user_id =>
    if ¬ User.is_exists_by_id db user_id then (.errs "Invalid user_id", db)
    else (.ok (), { db with users := db.users.filter (fun r => ¬ r.id == user_id) })

/-- `Customer::get_id_by_uuid`. -/
def Customer.get_id_by_uuid (db : DB) (customer_uuid : Option Nat) : Option Nat :=
  match customer_uuid with
  | none => none
  | some u => (db.customers.find? (fun r => r.uuid == u)).map (fun r => r.id)

/-- `Customer::is_exists`: blind-index lookup by email hash or phone hash;
the source `unwrap`s both plaintexts, a panic when either is absent. -/
def Customer.is_exists (db : DB) (hmac_secret : List Nat) (customer : Customer) :
    Outcome Bool :=
  match customer.email, customer.phone_number with
  | some e, some p =>
      .ok ((db.customers.find? (fun r =>
        r.email_hash == hash_value hmac_secret e ||
          r.phone_number_hash == hash_value hmac_secret p)).isSome)
  | _, _ => .panicked

/-- `Customer::is_exists_by_id`. -/
def Customer.is_exists_by_id (db : DB) (customer_id : Nat) : Bool :=
  (db.customers.find? (fun r => r.id == customer_id)).isSome

/-- `Customer::create`: duplicate blind-index check, actor resolution
(`ActorNotFound` error when the uuid resolves to no user), `unwrap` of the
three sensitive plaintexts, encryption of each under its fresh nonce plus
the two blind-index hashes, and the insert returning the generated id. -/
def Customer.create (db : DB) (key hmac_secret : List Nat) (user_uuid : Nat)
    (new_customer : Customer) (ns : CustomerNonces) : Outcome Nat × DB :=
  match Customer.is_exists db hmac_secret new_customer with
  | .panicked => (.panicked, db)
  | .errs e => (.errs e, db)
  | .ok true => (.errs "Az ügyfél már szerepel az adatbázisban.", db)
  | .ok false =>
    match User.get_id_by_uuid db (some user_uuid) with
    | none => (.errs "Felhasználó nem található!", db)
    | some user_id =>
      match new_customer.email, new_customer.phone_number, new_customer.address with
      | some email, some phone, some address =>
        let row : CustomerRow :=
          { id := db.next_id, uuid := db.next_id,
            full_name := new_customer.full_name,
            phone_number_enc := (encrypt_value key ns.phone phone).1,
            phone_number_nonce := ns.phone,
            phone_number_hash := hash_value hmac_secret phone,
            email_enc := (encrypt_value key ns.email email).1,
            email_nonce := ns.email,
            email_hash := hash_value hmac_secret email,
            address_enc := (encrypt_value key ns.address address).1,
            address_nonce := ns.address,
            comment := none, user_id := user_id,
            created_by := new_customer.created_by }
        (.ok db.next_id, { db with customers := db.customers ++ [row],
                                   next_id := db.next_id + 1 })
      | _, _, _ => (.panicked, db)

/-- `Customer::modify`: every sensitive plaintext is taken from the caller
with `unwrap_or_default()` — an omitted field becomes the empty string —
then re-hashed and re-encrypted under fresh nonces, and the row with the
given uuid is overwritten. -/
def Customer.modify (db : DB) (key hmac_secret : List Nat) (customer_uuid : Nat)
    (updated_customer : Customer) (ns : CustomerNonces) : Outcome Unit × DB :=
  let email := updated_customer.email.getD []
  let phone := updated_customer.phone_number.getD []
  let address := updated_customer.address.getD []
  let customers := db.customers.map (fun r =>
    if r.uuid == customer_uuid then
      { r with full_name := updated_customer.full_name,
               phone_number_enc := (encrypt_value key ns.phone phone).1,
               phone_number_nonce := ns.phone,
               phone_number_hash := hash_value hmac_secret phone,
               email_enc := (encrypt_value key ns.email email).1,
               email_nonce := ns.email,
               email_hash := hash_value hmac_secret email,
               address_enc := (encrypt_value key ns.address address).1,
               address_nonce := ns.address }
    else r)
  (.ok (), { db with customers := customers })

/-- `Customer::get_by_uuid`: `fetch_one` by uuid, decrypting each sensitive
field (a failed decryption degrades to `None`). -/
def Customer.get_by_uuid (db : DB) (key : List Nat) (customer_uuid : Nat) :
    Outcome Customer :=
  match db.customers.find? (fun r => r.uuid == customer_uuid) with
  | none => .errs "RowNotFound"
  | some row =>
    match decrypt_value key row.phone_number_enc row.phone_number_nonce,
          decrypt_value key row.email_enc row.email_nonce,
          decrypt_value key row.address_enc row.address_nonce with
    | .ok phone, .ok email, .ok address =>
        .ok { uuid := some row.uuid, full_name := row.full_name,
              phone_number := phone, email := email, address := address,
              comment := row.comment, user_id := some row.user_id }
    | _, _, _ => .panicked

/-- `Customer::delete`: for each uuid, `get_id_by_uuid(..).await?.unwrap()`
— a panic when the uuid resolves to no row — then the existence check and
the row deletion. -/
def Customer.delete (db : DB) : List Nat → Outcome Unit × DB
  | [] => (.ok (), db)
  | customer_uuid :: rest =>
    match Customer.get_id_by_uuid db (some customer_uuid) with
    | none => (.panicked, db)
    | some customer_id =>
      if ¬ Customer.is_exists_by_id db customer_id then (.errs "Nem létező ügyfél", db)
      else
        Customer.delete
          { db with customers := db.customers.filter (fun r => ¬ r.id == customer_id) }
          rest

/-- `Contract::create`: resolve the actor first (`ActorNotFound` before any
write), then the blind-index lookup over email OR phone hash; on a match
the existing customer id is reused and the incoming customer payload is
discarded, otherwise `Customer::create` runs; finally the contract row is
inserted.  Enum values are stored as their canonical strings; a `None` for
a NOT NULL column is a database error. -/
def Contract.create (db : DB) (key hmac_secret : List Nat) (user_uuid : Nat)
    (customer : Customer) (contract : Contract) (ns : CustomerNonces) :
    Outcome Nat × DB :=
  match User.get_id_by_uuid db (some user_uuid) with
  | none => (.errs "Felhasználó nem található!", db)
  | some user_id =>
    match customer.email, customer.phone_number with
    | some e, some p =>
      let found := db.customers.find? (fun r =>
        r.email_hash == hash_value hmac_secret e ||
          r.phone_number_hash == hash_value hmac_secret p)
      let step : Outcome Nat × DB :=
        match found with
        | some existing => (.ok existing.id, db)
        | none => Customer.create db key hmac_secret user_uuid customer ns
      match step with
      | (.ok customer_id, db1) =>
        match contract.contract_number, contract.contract_type,
              contract.annual_fee, contract.payment_frequency,
              contract.payment_method, contract.created_by with
        | some num, some ty, some fee, some freq, some pm, some cb =>
          let row : ContractRow :=
            { id := db1.next_id, uuid := db1.next_id, contract_number := num,
              contract_type := ty.str, annual_fee := fee, first_payment := false,
              payment_frequency := freq.str, payment_method := pm.str,
              customer_id := customer_id, user_id := user_id, created_by := cb }
          (.ok db1.next_id, { db1 with contracts := db1.contracts ++ [row],
                                       next_id := db1.next_id + 1 })
        | _, _, _, _, _, _ => (.errs "null value violates not-null constraint", db1)
      | (.errs msg, db1) => (.errs msg, db1)
      | (.panicked, db1) => (.panicked, db1)
    | _, _ => (.panicked, db)

/-- `Contract::get_by_uuid`: `fetch_one` by uuid, then
`row.field.parse().unwrap()` for the three stored enum strings — a panic
when a stored string is not a variant name. -/
def Contract.get_by_uuid (db : DB) (contract_uuid : Nat) : Outcome Contract :=
  match db.contracts.find? (fun r => r.uuid == contract_uuid) with
  | none => .errs "RowNotFound"
  | some row =>
    match ContractType.fromStr? row.contract_type,
          PaymentFrequency.fromStr? row.payment_frequency,
          PaymentMethod.fromStr? row.payment_method with
    | some ty, some freq, some pm =>
        .ok { uuid := some row.uuid, contract_number := some row.contract_number,
              contract_type := some ty, annual_fee := some row.annual_fee,
              first_payment := some row.first_payment,
              payment_frequency := some freq, payment_method := some pm,
              created_by := some row.created_by }
    | _, _, _ => .panicked

/-- `Lead::create`: actor resolution first, then the identical
find-or-create customer resolution, then the lead insert. -/
def Lead.create (db : DB) (key hmac_secret : List Nat) (user_uuid : Nat)
    (customer : Customer) (lead : Lead) (ns : CustomerNonces) :
    Outcome Unit × DB :=
  match User.get_id_by_uuid db (some user_uuid) with
  | none => (.errs "Felhasználó nem található!", db)
  | some user_id =>
    match customer.email, customer.phone_number with
    | some e, some p =>
      let found := db.customers.find? (fun r =>
        r.email_hash == hash_value hmac_secret e ||
          r.phone_number_hash == hash_value hmac_secret p)
      let step : Outcome Nat × DB :=
        match found with
        | some existing => (.ok existing.id, db)
        | none => Customer.create db key hmac_secret user_uuid customer ns
      match step with
      | (.ok customer_id, db1) =>
        match lead.lead_type, lead.inquiry_type, lead.lead_status, lead.created_by with
        | some ty, some inq, some st, some cb =>
          let row : LeadRow :=
            { id := db1.next_id, uuid := db1.next_id, lead_type := ty.str,
              inquiry_type := inq, lead_status := st.str,
              customer_id := customer_id, user_id := user_id, created_by := cb }
          (.ok (), { db1 with leads := db1.leads ++ [row], next_id := db1.next_id + 1 })
        | _, _, _, _ => (.errs "null value violates not-null constraint", db1)
      | (.errs msg, db1) => (.errs msg, db1)
      | (.panicked, db1) => (.panicked, db1)
    | _, _ => (.panicked, db)

/-- `InterventionTask::create`: actor resolution first, then the identical
find-or-create customer resolution, then the task insert. -/
def InterventionTask.create (db : DB) (key hmac_secret : List Nat) (user_uuid : Nat)
    (customer : Customer) (intervention_task : InterventionTask) (ns : CustomerNonces) :
    Outcome Nat × DB :=
  match User.get_id_by_uuid db (some user_uuid) with
  | none => (.errs "Felhasználó nem található!", db)
  | some user_id =>
    match customer.email, customer.phone_number with
    | some e, some p =>
      let found := db.customers.find? (fun r =>
        r.email_hash == hash_value hmac_secret e ||
          r.phone_number_hash == hash_value hmac_secret p)
      let step : Outcome Nat × DB :=
        match found with
        | some existing => (.ok existing.id, db)
        | none => Customer.create db key hmac_secret user_uuid customer ns
      match step with
      | (.ok customer_id, db1) =>
        match intervention_task.contract_number, intervention_task.product_name,
              intervention_task.outstanding_days, intervention_task.balance,
              intervention_task.status, intervention_task.created_by with
        | some num, some pn, some od, some bal, some st, some cb =>
          let row : TaskRow :=
            { id := db1.next_id, uuid := db1.next_id, contract_number := num,
              product_name := pn, outstanding_days := od, balance := bal,
              processing_deadline := intervention_task.processing_deadline,
              comment := intervention_task.comment, status := st.str,
              customer_id := customer_id, user_id := user_id, created_by := cb }
          (.ok db1.next_id, { db1 with tasks := db1.tasks ++ [row],
                                       next_id := db1.next_id + 1 })
        | _, _, _, _, _, _ => (.errs "null value violates not-null constraint", db1)
      | (.errs msg, db1) => (.errs msg, db1)
      | (.panicked, db1) => (.panicked, db1)
    | _, _ => (.panicked, db)

/-- `Recruitment::is_exists`: match by full name, email hash or phone hash;
absent plaintexts hash the empty string (`unwrap_or("")`). -/
def Recruitment.is_exists (db : DB) (hmac_secret : List Nat) (r : Recruitment) : Bool :=
  let full_name := r.full_name.getD ""
  let email := r.email.getD []
  let phone := r.phone_number.getD []
  (db.recruitment.find? (fun row =>
    row.full_name == some full_name ||
      row.email_hash == some (hash_value hmac_secret email) ||
      row.phone_number_hash == some (hash_value hmac_secret phone))).isSome

/-- `Recruitment::create`: duplicate check, required-field validation for
email and phone, then the insert with hashes and fresh-nonce ciphertexts.
The fresh nonces are `nEmail` and `nPhone`. -/
def Recruitment.create (db : DB) (key hmac_secret : List Nat)
    (recruitment : Recruitment) (nEmail nPhone : List Nat) : Outcome Nat × DB :=
  if Recruitment.is_exists db hmac_secret recruitment then
    (.errs "A jelölt már szerepel!", db)
  else
    match recruitment.email with
    | none => (.errs "Email megadása kötelező!", db)
    | some email =>
      match recruitment.phone_number with
      | none => (.errs "Telefonszám megadása kötelező!", db)
      | some phone =>
        let row : RecruitmentRow :=
          { uuid := db.next_id, full_name := recruitment.full_name,
            email_enc := (encrypt_value key nEmail email).1,
            email_nonce := nEmail,
            email_hash := some (hash_value hmac_secret email),
            phone_number_enc := (encrypt_value key nPhone phone).1,
            phone_number_nonce := nPhone,
            phone_number_hash := some (hash_value hmac_secret phone),
            description := recruitment.description,
            created_by := recruitment.created_by }
        (.ok db.next_id, { db with recruitment := db.recruitment ++ [row],
                                   next_id := db.next_id + 1 })

/-- `Recruitment::get_by_uuid`: `fetch_one` by uuid, decrypting email and
phone (a failed decryption degrades to `None`). -/
def Recruitment.get_by_uuid (db : DB) (key : List Nat) (recruitment_uuid : Nat) :
    Outcome Recruitment :=
  match db.recruitment.find? (fun r => r.uuid == recruitment_uuid) with
  | none => .errs "RowNotFound"
  | some row =>
    match decrypt_value key row.email_enc row.email_nonce,
          decrypt_value key row.phone_number_enc row.phone_number_nonce with
    | .ok email, .ok phone =>
        .ok { uuid := some row.uuid, full_name := row.full_name,
              email := email, phone_number := phone,
              description := row.description, created_by := row.created_by }
    | _, _ => .panicked

/-- `Recruitment::modify`: fetch the existing record, take each field from
the update when present and from the decrypted existing value otherwise,
re-encrypt both sensitive fields under fresh nonces (hash `NULL` when the
effective value is empty), and overwrite the row. -/
def Recruitment.modify (db : DB) (key hmac_secret : List Nat)
    (recruitment_uuid : Nat) (updated : Recruitment) (nEmail nPhone : List Nat) :
    Outcome Unit × DB :=
  match Recruitment.get_by_uuid db key recruitment_uuid with
  | .errs e => (.errs e, db)
  | .panicked => (.panicked, db)
  | .ok existing =>
    let full_name := match updated.full_name with
                     | some v => some v
                     | none => existing.full_name
    let created_by := match updated.created_by with
                      | some v => some v
                      | none => existing.created_by
    let effective_email := (match updated.email with
                            | some v => some v
                            | none => existing.email).getD []
    let effective_phone := (match updated.phone_number with
                            | some v => some v
                            | none => existing.phone_number).getD []
    let email_hash_opt := if effective_email.isEmpty then none
                          else some (hash_value hmac_secret effective_email)
    let phone_hash_opt := if effective_phone.isEmpty then none
                          else some (hash_value hmac_secret effective_phone)
    let recruitment := db.recruitment.map (fun r =>
      if r.uuid == recruitment_uuid then
        { r with full_name := full_name,
                 email_enc := (encrypt_value key nEmail effective_email).1,
                 email_nonce := nEmail,
                 email_hash := email_hash_opt,
                 phone_number_enc := (encrypt_value key nPhone effective_phone).1,
                 phone_number_nonce := nPhone,
                 phone_number_hash := phone_hash_opt,
                 created_by := created_by }
      else r)
    (.ok (), { db with recruitment := recruitment })

/-- Flips bit `i` of a byte string (byte `i / 8`, bit `i % 8`); the tamper
operation the specification quantifies over. -/
def flipBit (l : List Nat) (i : Nat) : List Nat :=
  l.set (i / 8) (l.getD (i / 8) 0 ^^^ (1 <<< (i % 8)))

/-- A concrete 32-byte encryption key for witnesses. -/
def exKey : List Nat := List.range 32

/-- A second, different 32-byte key. -/
def exKey2 : List Nat := List.replicate 32 9

/-- A concrete HMAC secret. -/
def exSecret : List Nat := [11, 22, 33]

/-- Concrete 12-byte nonces. -/
def exN1 : List Nat := List.range 12

/-- Concrete 12-byte nonce. -/
def exN2 : List Nat := List.replicate 12 7

/-- Concrete 12-byte nonce. -/
def exN3 : List Nat := List.replicate 12 8

/-- A concrete nonce triple for one customer write. -/
def exNonces : CustomerNonces := ⟨exN1, exN2, exN3⟩

/-- A second concrete nonce triple. -/
def exNonces2 : CustomerNonces :=
  ⟨List.replicate 12 1, List.replicate 12 2, List.replicate 12 3⟩

/-- The ciphertext `encrypt_value exKey exN1 [104]` produces, as a literal
(the equality is proved below). -/
def c2ct : List Nat :=
  [225, 95, 109, 111, 238, 159, 23, 223, 194, 58, 40, 42, 207, 183, 198, 215, 138]

/-- A stored user (a Manager) shared by the concrete witnesses. -/
def exUser : UserRow :=
  { id := 1, uuid := 10, email := some "u@x", username := some "u",
    user_role := "Manager", manager_id := none }

/-- Concrete sensitive plaintexts (bytes of "a@x", "+1", "+2", "Bp"). -/
def exEmail : List Nat := [97, 64, 120]

/-- Bytes of "+1". -/
def exPhone : List Nat := [43, 49]

/-- Bytes of "+2". -/
def exPhone2 : List Nat := [43, 50]

/-- Bytes of "Bp". -/
def exAddr : List Nat := [66, 112]

/-- A concrete incoming customer payload. -/
def exCust : Customer :=
  { full_name := some "A", phone_number := some exPhone, email := some exEmail,
    address := some exAddr, created_by := some "A" }

/-- A second payload sharing the first payload's email. -/
def exCust2 : Customer :=
  { full_name := some "B", phone_number := some exPhone2, email := some exEmail,
    address := some exAddr, created_by := some "B" }

/-- A complete concrete contract payload. -/
def exContract : Contract :=
  { contract_number := some "C-1", contract_type := some .Casco,
    annual_fee := some 100, payment_frequency := some .Monthly,
    payment_method := some .Check, created_by := some "A" }

/-- A complete concrete lead payload. -/
def exLead : Lead :=
  { lead_type := some .Personal, inquiry_type := some "Q",
    lead_status := some .Opened, created_by := some "A" }

/-- A complete concrete intervention-task payload. -/
def exTask : InterventionTask :=
  { contract_number := some "C-1", product_name := some "P",
    outstanding_days := some 3, balance := some 50,
    status := some .Pending, created_by := some "A" }

/-- A database with one user and no customers. -/
def exDb0 : DB := { users := [exUser], next_id := 2 }

/-- The customer row `Customer.create exDb0 exKey exSecret 10 exCust
exNonces` inserts. -/
def exRow : CustomerRow :=
  { id := 2, uuid := 2, full_name := some "A",
    phone_number_enc := (encrypt_value exKey exN2 exPhone).1,
    phone_number_nonce := exN2,
    phone_number_hash := hash_value exSecret exPhone,
    email_enc := (encrypt_value exKey exN1 exEmail).1,
    email_nonce := exN1,
    email_hash := hash_value exSecret exEmail,
    address_enc := (encrypt_value exKey exN3 exAddr).1,
    address_nonce := exN3,
    comment := none, user_id := 1, created_by := some "A" }

/-- The database after that creation. -/
def exDb1 : DB := { users := [exUser], customers := [exRow], next_id := 3 }

/-- A stored customer whose email is `exEmail`, for the modification
claims. -/
def c5row : CustomerRow :=
  { id := 1, uuid := 100, full_name := some "K",
    phone_number_enc := (encrypt_value exKey exN2 exPhone).1,
    phone_number_nonce := exN2,
    phone_number_hash := hash_value exSecret exPhone,
    email_enc := (encrypt_value exKey exN1 exEmail).1,
    email_nonce := exN1,
    email_hash := hash_value exSecret exEmail,
    address_enc := (encrypt_value exKey exN3 exAddr).1,
    address_nonce := exN3,
    comment := none, user_id := 1, created_by := some "x" }

/-- A database holding `c5row`. -/
def c5db : DB := { users := [exUser], customers := [c5row], next_id := 2 }

/-- A modification payload omitting every sensitive field. -/
def c5upd : Customer := { full_name := some "K2" }

/-- A stored recruitment row with encrypted email and phone. -/
def c5rrow : RecruitmentRow :=
  { uuid := 50, full_name := some "R",
    email_enc := (encrypt_value exKey exN1 exEmail).1,
    email_nonce := exN1,
    email_hash := some (hash_value exSecret exEmail),
    phone_number_enc := (encrypt_value exKey exN2 exPhone).1,
    phone_number_nonce := exN2,
    phone_number_hash := some (hash_value exSecret exPhone),
    description := some "d", created_by := some "c" }

/-- A database holding `c5rrow`. -/
def c5rdb : DB := { recruitment := [c5rrow], next_id := 2 }

/-- A recruitment modification payload omitting email and phone. -/
def c5rupd : Recruitment := { description := some "d2" }

/-- A stored contract row whose `contract_type` string is not a variant
name. -/
def c7badContract : ContractRow :=
  { id := 1, uuid := 5, contract_number := "C1", contract_type := "Bogus",
    annual_fee := 10, first_payment := false, payment_frequency := "Monthly",
    payment_method := "Check", customer_id := 1, user_id := 1, created_by := "x" }

/-- A database holding the undecodable contract row. -/
def c7dbBad : DB := { contracts := [c7badContract], next_id := 2 }

/-- A new-user payload without a manager link. -/
def c9nu : User :=
  { email := some "e@x", username := some "nu", password := some "pw" }

theorem chachaBlock_length (key nonce : List Nat) (c : Nat) :
    (chachaBlock key c nonce).length = 64 := by
  simp [chachaBlock, bytes4]

theorem keystreamBlocks_length (key nonce : List Nat) (c n : Nat) :
    (keystreamBlocks key nonce c n).length = 64 * n := by
  induction n generalizing c with
  | zero => rfl
  | succ m ih =>
    simp only [keystreamBlocks, List.length_append,
      chachaBlock_length key nonce c, ih (c + 1)]
    omega

theorem chachaKeystream_length (key nonce : List Nat) (len : Nat) :
    (chachaKeystream key nonce len).length = len := by
  simp only [chachaKeystream, List.length_take,
    keystreamBlocks_length key nonce 1]
  omega

theorem natToLeBytes_length (n v : Nat) : (natToLeBytes n v).length = n := by
  induction n generalizing v with
  | zero => rfl
  | succ m ih => simp [natToLeBytes, ih]

theorem poly1305Tag_length (polyKey msg : List Nat) :
    (poly1305Tag polyKey msg).length = 16 := by
  simp [poly1305Tag, natToLeBytes_length]

theorem xorBytes_length (a b : List Nat) :
    (xorBytes a b).length = min a.length b.length := by
  simp [xorBytes]

theorem xorBytes_cancel (a : List Nat) :
    ∀ b : List Nat, a.length ≤ b.length → xorBytes (xorBytes a b) b = a := by
  induction a with
  | nil => intro b _; cases b <;> rfl
  | cons x a ih =>
    intro b hab
    cases b with
    | nil => simp at hab
    | cons y b =>
      have hab2 : a.length ≤ b.length := by
        simpa using hab
      simp only [xorBytes, List.zipWith]
      rw [Nat.xor_cancel_right y x]
      exact congrArg _ (ih b hab2)

theorem aead_roundtrip (key nonce pt : List Nat) :
    aeadDecryptBytes key nonce (aeadEncryptBytes key nonce pt) = some pt := by
  have hks : (chachaKeystream key nonce pt.length).length = pt.length :=
    chachaKeystream_length key nonce pt.length
  have hbl : (xorBytes pt (chachaKeystream key nonce pt.length)).length = pt.length := by
    simp [xorBytes_length, hks]
  have htl :
      (poly1305Tag (polyKeyGen key nonce)
        (aeadMacData [] (xorBytes pt (chachaKeystream key nonce pt.length)))).length = 16 :=
    poly1305Tag_length _ _
  unfold aeadEncryptBytes aeadDecryptBytes
  simp only [List.length_append, hbl, htl]
  rw [if_neg (by omega)]
  have hlen : pt.length + 16 - 16 = (xorBytes pt (chachaKeystream key nonce pt.length)).length := by
    omega
  rw [hlen, List.take_left, List.drop_left, if_pos rfl, hbl]
  exact congrArg some (xorBytes_cancel pt _ (le_of_eq hks.symm))

theorem decrypt_value_ok_some (key ct nonce pt : List Nat)
    (h : decrypt_value key ct nonce = .ok (some pt)) :
    nonce.length = 12 ∧ aeadDecryptBytes key nonce ct = some pt ∧ isValidUtf8 pt = true := by
  unfold decrypt_value at h
  by_cases hn : nonce.length = 12
  · refine ⟨hn, ?_⟩
    rw [if_neg (by simp [hn])] at h
    cases hd : aeadDecryptBytes key nonce ct with
    | none => rw [hd] at h; exact absurd h (by simp)
    | some raw =>
      rw [hd] at h
      by_cases hv : isValidUtf8 raw = true
      · simp [hv] at h
        exact ⟨by rw [h], by rw [← h]; exact hv⟩
      · simp [hv] at h
  · rw [if_pos (by simp [hn])] at h
    exact absurd h (by simp)

theorem decrypt_value_authfail (key ct nonce : List Nat)
    (hn : nonce.length = 12) (h : aeadDecryptBytes key nonce ct = none) :
    decrypt_value key ct nonce = .ok none := by
  unfold decrypt_value
  rw [if_neg (by simp [hn]), h]

theorem decrypt_value_invalid_utf8 (key ct nonce pt : List Nat)
    (hn : nonce.length = 12) (hd : aeadDecryptBytes key nonce ct = some pt)
    (hv : isValidUtf8 pt = false) :
    decrypt_value key ct nonce = .ok none := by
  unfold decrypt_value
  rw [if_neg (by simp [hn]), hd]
  simp [hv]

theorem encrypt_decrypt_roundtrip (key nonce p : List Nat)
    (hk : key.length = 32) (hn : nonce.length = 12) (hp : isValidUtf8 p = true) :
    decrypt_value key (encrypt_value key nonce p).1 (encrypt_value key nonce p).2 =
      .ok (some p) := by
  unfold encrypt_value decrypt_value
  simp only
  rw [if_neg (by simp [hn]), aead_roundtrip key nonce p]
  simp [hp]

theorem find?_map_of_pred_invariant {α : Type} (f : α → α) (p : α → Bool)
    (hf : ∀ x, p (f x) = p x) (l : List α) :
    (l.map f).find? p = (l.find? p).map f := by
  induction l with
  | nil => rfl
  | cons x xs ih =>
    by_cases hx : p x = true
    · simp [List.find?, hx, hf x]
    · have hx2 : p x = false := by
        revert hx
        cases p x <;> simp
      simp [List.find?, hx2, hf x, ih]

set_option maxRecDepth 40000
set_option maxHeartbeats 8000000

/-- C1: for every valid (32-byte) key, every fresh 12-byte nonce and every
plaintext string (a valid-UTF-8 byte sequence), decrypting the
(ciphertext, nonce) pair produced by `encrypt_value` with the same key
returns `Some` of the original plaintext. -/
theorem claim_C1_roundtrip (key nonce p : List Nat)
    (hk : key.length = 32) (hn : nonce.length = 12) (hp : isValidUtf8 p = true) :
    decrypt_value key (encrypt_value key nonce p).1 (encrypt_value key nonce p).2 =
      .ok (some p) :=
  encrypt_decrypt_roundtrip key nonce p hk hn hp

/-- Witness for C1 at a concrete key, nonce and plaintext `"hi"`. -/
theorem claim_C1_roundtrip_witness :
    decrypt_value exKey (encrypt_value exKey exN1 [104, 105]).1
      (encrypt_value exKey exN1 [104, 105]).2 = .ok (some [104, 105]) :=
  claim_C1_roundtrip exKey exN1 [104, 105] (by decide) (by decide) (by decide)

/-- C2 as stated is false at a concrete input: `decrypt_value` panics
(`Nonce::from_slice`) when the nonce slice is not 12 bytes, so it does not
hold for *every* nonce that authentication failure yields `None` without a
panic. -/
theorem claim_C2_counterexample :
    decrypt_value exKey c2ct [] = Outcome.panicked := by
  decide

/-- C2 amended: for every 12-byte nonce, failed AEAD authentication makes
`decrypt_value` return `None` and never a panic; every `Some` result is
exactly the authenticated XOR decryption (never a different plaintext);
and, at a concrete produced ciphertext (`c2ct`, the encryption of `"h"`),
flipping any single bit of the ciphertext or of the nonce, or decrypting
under a different key, yields `None`.  A nonce slice of any length other
than 12 bytes panics in `Nonce::from_slice` instead. -/
theorem claim_C2_amended :
    (∀ key ct nonce : List Nat, nonce.length = 12 →
        aeadDecryptBytes key nonce ct = none → decrypt_value key ct nonce = .ok none) ∧
    (∀ key ct nonce pt : List Nat, decrypt_value key ct nonce = .ok (some pt) →
        aeadDecryptBytes key nonce ct = some pt) ∧
    c2ct = (encrypt_value exKey exN1 [104]).1 ∧
    ((List.range (c2ct.length * 8)).all (fun i =>
        decrypt_value exKey (flipBit c2ct i) exN1 = .ok none) = true) ∧
    ((List.range 96).all (fun i =>
        decrypt_value exKey c2ct (flipBit exN1 i) = .ok none) = true) ∧
    decrypt_value exKey2 c2ct exN1 = .ok none := by
  refine ⟨?_, ?_, by decide, by decide, by decide, by decide⟩
  · exact fun key ct nonce hn h => decrypt_value_authfail key ct nonce hn h
  · exact fun key ct nonce pt h => (decrypt_value_ok_some key ct nonce pt h).2.1

/-- Witness for the universally quantified parts of the amended C2:
an empty ciphertext (too short to authenticate) decrypts to `None`. -/
theorem claim_C2_amended_witness :
    decrypt_value exKey [] exN1 = .ok none :=
  claim_C2_amended.1 exKey [] exN1 (by decide) (by decide)

/-- C10: every `Some` result of `decrypt_value` is the authenticated
plaintext and is valid UTF-8; and when authentication succeeds but the
decrypted bytes are not valid UTF-8 (`String::from_utf8` fails), the
result is `None`, never a lossy or partial string. -/
theorem claim_C10_utf8 :
    (∀ key ct nonce pt : List Nat, decrypt_value key ct nonce = .ok (some pt) →
        aeadDecryptBytes key nonce ct = some pt ∧ isValidUtf8 pt = true) ∧
    (∀ key ct nonce pt : List Nat, nonce.length = 12 →
        aeadDecryptBytes key nonce ct = some pt → isValidUtf8 pt = false →
        decrypt_value key ct nonce = .ok none) := by
  constructor
  · exact fun key ct nonce pt h => (decrypt_value_ok_some key ct nonce pt h).2
  · exact fun key ct nonce pt hn hd hv => decrypt_value_invalid_utf8 key ct nonce pt hn hd hv

/-- Witness for C10: a ciphertext whose authenticated payload is the
invalid-UTF-8 byte `0xFF` decrypts to `None`. -/
theorem claim_C10_utf8_witness :
    decrypt_value exKey (aeadEncryptBytes exKey exN1 [255]) exN1 = .ok none :=
  claim_C10_utf8.2 exKey (aeadEncryptBytes exKey exN1 [255]) exN1 [255] (by decide)
    (aead_roundtrip exKey exN1 [255]) (by decide)

/-- C3: `require_role` succeeds exactly when the actor's current role is
at least `min_role` in the order `Agent < Manager < Leader`; in
particular the `Manager` gate admits exactly Manager and Leader actors and
the `Leader` gate only Leader actors, while the `Agent` gate admits every
actor. -/
theorem claim_C3_require_role (db : DB) (user_id : Nat) (r : UserRole)
    (h : User.get_role db user_id = .ok r) :
    (∀ min_role : UserRole,
        User.require_role db min_role user_id = .ok () ↔ min_role.rank ≤ r.rank) ∧
    (User.require_role db .Manager user_id = .ok () ↔ r = .Manager ∨ r = .Leader) ∧
    (User.require_role db .Leader user_id = .ok () ↔ r = .Leader) ∧
    User.require_role db .Agent user_id = .ok () := by
  have key : ∀ min_role : UserRole,
      User.require_role db min_role user_id = .ok () ↔ min_role.rank ≤ r.rank := by
    intro m
    unfold User.require_role
    rw [h]
    by_cases hc : m.rank ≤ r.rank
    · simp [hc]
    · simp [hc]
  refine ⟨key, ?_, ?_, ?_⟩
  · rw [key .Manager]
    cases r <;> simp [UserRole.rank]
  · rw [key .Leader]
    cases r <;> simp [UserRole.rank]
  · exact (key .Agent).mpr (Nat.zero_le _)

/-- C9: a successful `User::create` appends exactly one `users` row whose
role is inferred solely from the manager link: `"Agent"` when a manager
uuid is present, `"Manager"` otherwise — never `"Leader"`, so no user with
a manager reference is a Leader at creation time. -/
theorem claim_C9_role_at_creation (db : DB) (nu : User)
    (h : (User.create db nu).1 = .ok ()) :
    ∃ row : UserRow,
      (User.create db nu).2.users = db.users ++ [row] ∧
      row.user_role = (if nu.manager_uuid.isSome then "Agent" else "Manager") ∧
      UserRole.fromString row.user_role ≠ .Leader ∧
      (nu.manager_uuid.isSome = true → UserRole.fromString row.user_role = .Agent) ∧
      (nu.manager_uuid = none → UserRole.fromString row.user_role = .Manager) := by
  by_cases he : User.is_exists db nu
  · have hbad : (User.create db nu).1 =
        .errs "Ez az e-mail cím vagy felhasználónév már létezik." := by
      unfold User.create
      rw [if_pos he]
    rw [hbad] at h
    exact absurd h (by simp)
  · cases hp : nu.password with
    | none =>
      have hbad : (User.create db nu).1 = .panicked := by
        unfold User.create
        rw [if_neg he, hp]
      rw [hbad] at h
      exact absurd h (by simp)
    | some pw =>
      have hok : User.create db nu =
          (.ok (), { db with
              users := db.users ++
                [{ id := db.next_id, uuid := db.next_id, email := nu.email,
                   username := nu.username,
                   user_role := if nu.manager_uuid.isSome then "Agent" else "Manager",
                   manager_id := User.get_id_by_uuid db nu.manager_uuid }],
              user_infos := db.user_infos ++
                [{ user_id := db.next_id, full_name := nu.info.full_name,
                   phone_number := nu.info.phone_number,
                   hufa_code := nu.info.hufa_code,
                   agent_code := nu.info.agent_code }],
              next_id := db.next_id + 1 }) := by
        unfold User.create
        rw [if_neg he, hp]
      rw [hok]
      refine ⟨_, rfl, rfl, ?_, ?_, ?_⟩
      · cases hm : nu.manager_uuid.isSome <;> simp [hm, UserRole.fromString]
      · intro hm
        simp [hm, UserRole.fromString]
      · intro hm
        have hm2 : nu.manager_uuid.isSome = false := by simp [hm]
        simp [hm2, UserRole.fromString]

/-- Witness for C9: creating a user without a manager link on an empty
database succeeds and stores role `"Manager"`. -/
theorem claim_C9_role_at_creation_witness :
    ((User.create {} c9nu).1 = .ok ()) ∧
    ∃ row : UserRow,
      (User.create {} c9nu).2.users = ({} : DB).users ++ [row] ∧
      row.user_role = (if c9nu.manager_uuid.isSome then "Agent" else "Manager") ∧
      UserRole.fromString row.user_role ≠ .Leader ∧
      (c9nu.manager_uuid.isSome = true → UserRole.fromString row.user_role = .Agent) ∧
      (c9nu.manager_uuid = none → UserRole.fromString row.user_role = .Manager) :=
  ⟨by decide, claim_C9_role_at_creation {} c9nu (by decide)⟩

/-- C8: when the acting user's public identifier resolves to no user, each
customer-resolving creation fails with the actor-not-found error and the
database is returned unchanged — no customer row and no dependent row is
written; `Customer::create` behaves the same once its duplicate check has
passed. -/
theorem claim_C8_actor_not_found (db : DB) (key hmac_secret : List Nat)
    (user_uuid : Nat) (customer : Customer) (contract : Contract) (lead : Lead)
    (task : InterventionTask) (ns : CustomerNonces)
    (hu : User.get_id_by_uuid db (some user_uuid) = none) :
    Contract.create db key hmac_secret user_uuid customer contract ns =
      (.errs "Felhasználó nem található!", db) ∧
    Lead.create db key hmac_secret user_uuid customer lead ns =
      (.errs "Felhasználó nem található!", db) ∧
    InterventionTask.create db key hmac_secret user_uuid customer task ns =
      (.errs "Felhasználó nem található!", db) ∧
    (Customer.is_exists db hmac_secret customer = .ok false →
      Customer.create db key hmac_secret user_uuid customer ns =
        (.errs "Felhasználó nem található!", db)) := by
  refine ⟨?_, ?_, ?_, ?_⟩
  · unfold Contract.create
    rw [hu]
  · unfold Lead.create
    rw [hu]
  · unfold InterventionTask.create
    rw [hu]
  · intro hex
    unfold Customer.create
    rw [hex, hu]

/-- Witness for C8 at a concrete database with no users. -/
theorem claim_C8_actor_not_found_witness :
    Contract.create {} exKey exSecret 5
        { email := some [97], phone_number := some [43] } {} exNonces =
      (.errs "Felhasználó nem található!", {}) ∧
    Customer.create {} exKey exSecret 5
        { email := some [97], phone_number := some [43] } exNonces =
      (.errs "Felhasználó nem található!", {}) :=
  ⟨(claim_C8_actor_not_found {} exKey exSecret 5
      { email := some [97], phone_number := some [43] } {} {} {} exNonces
      (by decide)).1,
   (claim_C8_actor_not_found {} exKey exSecret 5
      { email := some [97], phone_number := some [43] } {} {} {} exNonces
      (by decide)).2.2.2 (by decide)⟩

/-- Witness for C3 at a concrete Manager actor. -/
theorem claim_C3_require_role_witness :
    User.require_role exDb0 .Manager 1 = .ok () :=
  (claim_C3_require_role exDb0 1 .Manager (by decide)).2.1.mpr (Or.inl rfl)

/-- C4: in a `Contract::create` carrying a complete customer and contract
payload, with a resolved actor: when a stored customer row matches the
blind-index hash of the email or of the phone, that row's id becomes the
contract's `customer_id` and the customer table is untouched (the payload
is discarded); when no row matches, exactly one new customer row is
appended, owned by the resolved actor, with every sensitive field
encrypted under its fresh nonce and hashed for the searchable fields, and
its id becomes the contract's `customer_id`. -/
theorem claim_C4_find_or_create (db : DB) (key hmac_secret : List Nat)
    (user_uuid user_id : Nat) (customer : Customer) (contract : Contract)
    (ns : CustomerNonces) (e p a : List Nat) (cn : String) (ty : ContractType)
    (fee : Int) (freq : PaymentFrequency) (pm : PaymentMethod) (cb : String)
    (hu : User.get_id_by_uuid db (some user_uuid) = some user_id)
    (he : customer.email = some e) (hp : customer.phone_number = some p)
    (ha : customer.address = some a)
    (hc1 : contract.contract_number = some cn)
    (hc2 : contract.contract_type = some ty)
    (hc3 : contract.annual_fee = some fee)
    (hc4 : contract.payment_frequency = some freq)
    (hc5 : contract.payment_method = some pm)
    (hc6 : contract.created_by = some cb)
    (lead : Lead) (lty : LeadType) (linq : String) (lst : LeadStatus) (lcb : String)
    (hl1 : lead.lead_type = some lty) (hl2 : lead.inquiry_type = some linq)
    (hl3 : lead.lead_status = some lst) (hl4 : lead.created_by = some lcb)
    (task : InterventionTask) (tn : String) (tp : String) (tod tb : Int)
    (tst : InterventionTaskStatus) (tcb : String)
    (ht1 : task.contract_number = some tn) (ht2 : task.product_name = some tp)
    (ht3 : task.outstanding_days = some tod) (ht4 : task.balance = some tb)
    (ht5 : task.status = some tst) (ht6 : task.created_by = some tcb) :
    (∀ row, db.customers.find? (fun r =>
        r.email_hash == hash_value hmac_secret e ||
          r.phone_number_hash == hash_value hmac_secret p) = some row →
      Contract.create db key hmac_secret user_uuid customer contract ns =
        (.ok db.next_id,
          { db with
              contracts := db.contracts ++
                [{ id := db.next_id, uuid := db.next_id, contract_number := cn,
                   contract_type := ty.str, annual_fee := fee, first_payment := false,
                   payment_frequency := freq.str, payment_method := pm.str,
                   customer_id := row.id, user_id := user_id, created_by := cb }],
              next_id := db.next_id + 1 })) ∧
    (db.customers.find? (fun r =>
        r.email_hash == hash_value hmac_secret e ||
          r.phone_number_hash == hash_value hmac_secret p) = none →
      Contract.create db key hmac_secret user_uuid customer contract ns =
        (.ok (db.next_id + 1),
          { db with
              customers := db.customers ++
                [{ id := db.next_id, uuid := db.next_id,
                   full_name := customer.full_name,
                   phone_number_enc := (encrypt_value key ns.phone p).1,
                   phone_number_nonce := ns.phone,
                   phone_number_hash := hash_value hmac_secret p,
                   email_enc := (encrypt_value key ns.email e).1,
                   email_nonce := ns.email,
                   email_hash := hash_value hmac_secret e,
                   address_enc := (encrypt_value key ns.address a).1,
                   address_nonce := ns.address,
                   comment := none, user_id := user_id,
                   created_by := customer.created_by }],
              contracts := db.contracts ++
                [{ id := db.next_id + 1, uuid := db.next_id + 1,
                   contract_number := cn, contract_type := ty.str,
                   annual_fee := fee, first_payment := false,
                   payment_frequency := freq.str, payment_method := pm.str,
                   customer_id := db.next_id, user_id := user_id,
                   created_by := cb }],
              next_id := db.next_id + 2 })) ∧
    (∀ row, db.customers.find? (fun r =>
        r.email_hash == hash_value hmac_secret e ||
          r.phone_number_hash == hash_value hmac_secret p) = some row →
      Lead.create db key hmac_secret user_uuid customer lead ns =
        (.ok (),
          { db with
              leads := db.leads ++
                [{ id := db.next_id, uuid := db.next_id, lead_type := lty.str,
                   inquiry_type := linq, lead_status := lst.str,
                   customer_id := row.id, user_id := user_id, created_by := lcb }],
              next_id := db.next_id + 1 })) ∧
    (db.customers.find? (fun r =>
        r.email_hash == hash_value hmac_secret e ||
          r.phone_number_hash == hash_value hmac_secret p) = none →
      Lead.create db key hmac_secret user_uuid customer lead ns =
        (.ok (),
          { db with
              customers := db.customers ++
                [{ id := db.next_id, uuid := db.next_id,
                   full_name := customer.full_name,
                   phone_number_enc := (encrypt_value key ns.phone p).1,
                   phone_number_nonce := ns.phone,
                   phone_number_hash := hash_value hmac_secret p,
                   email_enc := (encrypt_value key ns.email e).1,
                   email_nonce := ns.email,
                   email_hash := hash_value hmac_secret e,
                   address_enc := (encrypt_value key ns.address a).1,
                   address_nonce := ns.address,
                   comment := none, user_id := user_id,
                   created_by := customer.created_by }],
              leads := db.leads ++
                [{ id := db.next_id + 1, uuid := db.next_id + 1,
                   lead_type := lty.str, inquiry_type := linq,
                   lead_status := lst.str, customer_id := db.next_id,
                   user_id := user_id, created_by := lcb }],
              next_id := db.next_id + 2 })) ∧
    (∀ row, db.customers.find? (fun r =>
        r.email_hash == hash_value hmac_secret e ||
          r.phone_number_hash == hash_value hmac_secret p) = some row →
      InterventionTask.create db key hmac_secret user_uuid customer task ns =
        (.ok db.next_id,
          { db with
              tasks := db.tasks ++
                [{ id := db.next_id, uuid := db.next_id, contract_number := tn,
                   product_name := tp, outstanding_days := tod, balance := tb,
                   processing_deadline := task.processing_deadline,
                   comment := task.comment, status := tst.str,
                   customer_id := row.id, user_id := user_id,
                   created_by := tcb }],
              next_id := db.next_id + 1 })) ∧
    (db.customers.find? (fun r =>
        r.email_hash == hash_value hmac_secret e ||
          r.phone_number_hash == hash_value hmac_secret p) = none →
      InterventionTask.create db key hmac_secret user_uuid customer task ns =
        (.ok (db.next_id + 1),
          { db with
              customers := db.customers ++
                [{ id := db.next_id, uuid := db.next_id,
                   full_name := customer.full_name,
                   phone_number_enc := (encrypt_value key ns.phone p).1,
                   phone_number_nonce := ns.phone,
                   phone_number_hash := hash_value hmac_secret p,
                   email_enc := (encrypt_value key ns.email e).1,
                   email_nonce := ns.email,
                   email_hash := hash_value hmac_secret e,
                   address_enc := (encrypt_value key ns.address a).1,
                   address_nonce := ns.address,
                   comment := none, user_id := user_id,
                   created_by := customer.created_by }],
              tasks := db.tasks ++
                [{ id := db.next_id + 1, uuid := db.next_id + 1,
                   contract_number := tn, product_name := tp,
                   outstanding_days := tod, balance := tb,
                   processing_deadline := task.processing_deadline,
                   comment := task.comment, status := tst.str,
                   customer_id := db.next_id, user_id := user_id,
                   created_by := tcb }],
              next_id := db.next_id + 2 })) := by
  have hex0 : db.customers.find? (fun r =>
      r.email_hash == hash_value hmac_secret e ||
        r.phone_number_hash == hash_value hmac_secret p) = none →
      Customer.is_exists db hmac_secret customer = .ok false := by
    intro hfind
    unfold Customer.is_exists
    simp only [he, hp, hfind, Option.isSome_none]
  have hcc : db.customers.find? (fun r =>
      r.email_hash == hash_value hmac_secret e ||
        r.phone_number_hash == hash_value hmac_secret p) = none →
      Customer.create db key hmac_secret user_uuid customer ns =
        (.ok db.next_id,
          { db with
              customers := db.customers ++
                [{ id := db.next_id, uuid := db.next_id,
                   full_name := customer.full_name,
                   phone_number_enc := (encrypt_value key ns.phone p).1,
                   phone_number_nonce := ns.phone,
                   phone_number_hash := hash_value hmac_secret p,
                   email_enc := (encrypt_value key ns.email e).1,
                   email_nonce := ns.email,
                   email_hash := hash_value hmac_secret e,
                   address_enc := (encrypt_value key ns.address a).1,
                   address_nonce := ns.address,
                   comment := none, user_id := user_id,
                   created_by := customer.created_by }],
              next_id := db.next_id + 1 }) := by
    intro hfind
    unfold Customer.create
    simp only [hex0 hfind, hu, he, hp, ha]
  refine ⟨?_, ?_, ?_, ?_, ?_, ?_⟩
  · intro row hfind
    unfold Contract.create
    simp only [hu, he, hp, hfind, hc1, hc2, hc3, hc4, hc5, hc6]
  · intro hfind
    unfold Contract.create
    simp only [hu, he, hp, hfind, hcc hfind, hc1, hc2, hc3, hc4, hc5, hc6]
  · intro row hfind
    unfold Lead.create
    simp only [hu, he, hp, hfind, hl1, hl2, hl3, hl4]
  · intro hfind
    unfold Lead.create
    simp only [hu, he, hp, hfind, hcc hfind, hl1, hl2, hl3, hl4]
  · intro row hfind
    unfold InterventionTask.create
    simp only [hu, he, hp, hfind, ht1, ht2, ht3, ht4, ht5, ht6]
  · intro hfind
    unfold InterventionTask.create
    simp only [hu, he, hp, hfind, hcc hfind, ht1, ht2, ht3, ht4, ht5, ht6]

/-- Witness for C4: on a database already holding `exRow` the customer
table is untouched, and on one without customers exactly `exRow` is
appended. -/
theorem claim_C4_find_or_create_witness :
    (Contract.create exDb1 exKey exSecret 10 exCust2 exContract exNonces2).2.customers =
      exDb1.customers ∧
    (Contract.create exDb0 exKey exSecret 10 exCust exContract exNonces).2.customers =
      exDb0.customers ++ [exRow] := by
  have h1 := (claim_C4_find_or_create exDb1 exKey exSecret 10 1 exCust2 exContract
    exNonces2 exEmail exPhone2 exAddr "C-1" .Casco 100 .Monthly .Check "A"
    (by decide) rfl rfl rfl rfl rfl rfl rfl rfl rfl
    exLead .Personal "Q" .Opened "A" rfl rfl rfl rfl
    exTask "C-1" "P" 3 50 .Pending "A" rfl rfl rfl rfl rfl rfl).1 exRow (by decide)
  have h2 := (claim_C4_find_or_create exDb0 exKey exSecret 10 1 exCust exContract
    exNonces exEmail exPhone exAddr "C-1" .Casco 100 .Monthly .Check "A"
    (by decide) rfl rfl rfl rfl rfl rfl rfl rfl rfl
    exLead .Personal "Q" .Opened "A" rfl rfl rfl rfl
    exTask "C-1" "P" 3 50 .Pending "A" rfl rfl rfl rfl rfl rfl).2.1 (by decide)
  rw [h1, h2]
  exact ⟨rfl, rfl⟩

theorem find?_append_of_none {α : Type} (p : α → Bool) (l1 l2 : List α)
    (h : l1.find? p = none) : (l1 ++ l2).find? p = l2.find? p := by
  induction l1 with
  | nil => rfl
  | cons x xs ih =>
    rw [List.find?_cons] at h
    cases hx : p x with
    | true => rw [hx] at h; exact absurd h (by simp)
    | false =>
      rw [hx] at h
      rw [List.cons_append, List.find?_cons, hx]
      exact ih h

/-- C6 as stated is false at a concrete input: after `exCust` (email
`exEmail`) has been created, a second *direct* `Customer::create` with the
same email returns the already-exists error — it does not resolve to the
existing internal id (it returns no id at all); it does, however, leave
the customer table unchanged. -/
theorem claim_C6_counterexample :
    Customer.create exDb0 exKey exSecret 10 exCust exNonces = (.ok 2, exDb1) ∧
    Customer.create exDb1 exKey exSecret 10 exCust2 exNonces2 =
      (.errs "Az ügyfél már szerepel az adatbázisban.", exDb1) := by
  constructor
  · decide
  · decide

/-- C6 amended: once a customer row with email hash `hash(e)` is stored,
a second direct `Customer::create` presenting email `e` fails with the
already-exists error and leaves the database unchanged (no second row, but
also no id); resolving through `Contract::create` with email `e` (and a
phone matching no earlier row) reuses that row's internal id as the
contract's `customer_id` and inserts no customer row. -/
theorem claim_C6_amended (db db1 : DB) (key hmac_secret : List Nat)
    (uuid1 uid1 : Nat) (c2 : Customer) (ns2 : CustomerNonces) (contract : Contract)
    (row : CustomerRow) (e p2 : List Nat) (cn : String) (ty : ContractType)
    (fee : Int) (freq : PaymentFrequency) (pm : PaymentMethod) (cb : String)
    (hdb1c : db1.customers = db.customers ++ [row])
    (hrow : row.email_hash = hash_value hmac_secret e)
    (hold : ∀ r ∈ db.customers,
        r.email_hash ≠ hash_value hmac_secret e ∧
          r.phone_number_hash ≠ hash_value hmac_secret p2)
    (he2 : c2.email = some e) (hp2 : c2.phone_number = some p2)
    (hu : User.get_id_by_uuid db1 (some uuid1) = some uid1)
    (hc1 : contract.contract_number = some cn)
    (hc2 : contract.contract_type = some ty)
    (hc3 : contract.annual_fee = some fee)
    (hc4 : contract.payment_frequency = some freq)
    (hc5 : contract.payment_method = some pm)
    (hc6 : contract.created_by = some cb) :
    Customer.create db1 key hmac_secret uuid1 c2 ns2 =
      (.errs "Az ügyfél már szerepel az adatbázisban.", db1) ∧
    Contract.create db1 key hmac_secret uuid1 c2 contract ns2 =
      (.ok db1.next_id,
        { db1 with
            contracts := db1.contracts ++
              [{ id := db1.next_id, uuid := db1.next_id, contract_number := cn,
                 contract_type := ty.str, annual_fee := fee, first_payment := false,
                 payment_frequency := freq.str, payment_method := pm.str,
                 customer_id := row.id, user_id := uid1, created_by := cb }],
            next_id := db1.next_id + 1 }) := by
  have hfind : db1.customers.find? (fun r =>
      r.email_hash == hash_value hmac_secret e ||
        r.phone_number_hash == hash_value hmac_secret p2) = some row := by
    rw [hdb1c]
    rw [find?_append_of_none _ _ _ (List.find?_eq_none.mpr ?_)]
    · rw [List.find?_cons]
      have hp : (row.email_hash == hash_value hmac_secret e ||
          row.phone_number_hash == hash_value hmac_secret p2) = true := by
        rw [hrow]
        simp
      rw [hp]
    · intro r hr
      have h := hold r hr
      simp only [Bool.or_eq_true, beq_iff_eq]
      push_neg
      exact h
  constructor
  · have hex : Customer.is_exists db1 hmac_secret c2 = .ok true := by
      unfold Customer.is_exists
      simp only [he2, hp2, hfind, Option.isSome_some]
    unfold Customer.create
    simp only [hex]
  · unfold Contract.create
    simp only [hu, he2, hp2, hfind, hc1, hc2, hc3, hc4, hc5, hc6]

/-- Witness for C6 amended at the concrete database `exDb1`. -/
theorem claim_C6_amended_witness :
    Customer.create exDb1 exKey exSecret 10 exCust2 exNonces2 =
      (.errs "Az ügyfél már szerepel az adatbázisban.", exDb1) ∧
    (Contract.create exDb1 exKey exSecret 10 exCust2 exContract exNonces2).2.contracts.map
      (fun r => r.customer_id) = [exRow.id] := by
  have h := claim_C6_amended exDb0 exDb1 exKey exSecret 10 1 exCust2 exNonces2
    exContract exRow exEmail exPhone2 "C-1" .Casco 100 .Monthly .Check "A"
    rfl rfl (by intro r hr; exact absurd hr (List.not_mem_nil r))
    rfl rfl (by decide) rfl rfl rfl rfl rfl rfl
  refine ⟨h.1, ?_⟩
  rw [h.2]
  rfl

/-- C5 as stated is false at a concrete input: `c5row` stores the
encryption of `exEmail`, yet after `Customer::modify` with a payload that
omits email, phone and address, the stored email decrypts to the *empty*
string, not to the previous value — the omitted field was wiped, not
retained. -/
theorem claim_C5_counterexample :
    decrypt_value exKey c5row.email_enc c5row.email_nonce = .ok (some exEmail) ∧
    (Customer.modify c5db exKey exSecret 100 c5upd exNonces2).2.customers.map
      (fun r => decrypt_value exKey r.email_enc r.email_nonce) = [.ok (some [])] := by
  constructor
  · decide
  · decide

theorem find?_map_if_update {α : Type} (p : α → Bool) (g : α → α)
    (hg : ∀ x, p (g x) = p x) (l : List α) (r0 : α)
    (hfind : l.find? p = some r0) :
    (l.map (fun r => if p r then g r else r)).find? p = some (g r0) := by
  have hinv : ∀ x, p (if p x then g x else x) = p x := by
    intro x
    by_cases hx : p x
    · rw [if_pos hx, hg]
    · rw [if_neg hx]
  rw [find?_map_of_pred_invariant _ _ hinv, hfind]
  have hp0 : p r0 = true := List.find?_some hfind
  simp only [Option.map_some']
  rw [if_pos hp0]

/-- C5 amended: the two modification paths differ.  `Customer::modify`
re-encrypts every omitted sensitive field as the *empty string* — the
updated table stores `encrypt("")` (which decrypts to the empty value) for
an omitted email, wiping the previous plaintext — while
`Recruitment::modify` follows the fetch-existing/merge/re-encrypt
contract: omitted fields keep their previous decrypted value under fresh
nonces. -/
theorem claim_C5_amended (key hmac_secret : List Nat) (hk : key.length = 32) :
    (∀ (db2 : DB) (u : Nat) (upd : Customer) (ns : CustomerNonces),
        upd.email = none → ns.email.length = 12 →
        (Customer.modify db2 key hmac_secret u upd ns).2.customers =
          db2.customers.map (fun r =>
            if r.uuid == u then
              { r with full_name := upd.full_name,
                       phone_number_enc :=
                         (encrypt_value key ns.phone (upd.phone_number.getD [])).1,
                       phone_number_nonce := ns.phone,
                       phone_number_hash :=
                         hash_value hmac_secret (upd.phone_number.getD []),
                       email_enc := (encrypt_value key ns.email []).1,
                       email_nonce := ns.email,
                       email_hash := hash_value hmac_secret [],
                       address_enc :=
                         (encrypt_value key ns.address (upd.address.getD [])).1,
                       address_nonce := ns.address }
            else r) ∧
        decrypt_value key (encrypt_value key ns.email []).1 ns.email = .ok (some [])) ∧
    (∀ (db : DB) (ru : Nat) (rupd : Recruitment) (nE nP : List Nat)
        (row : RecruitmentRow) (e pn : List Nat),
        nE.length = 12 → nP.length = 12 →
        db.recruitment.find? (fun r => r.uuid == ru) = some row →
        decrypt_value key row.email_enc row.email_nonce = .ok (some e) →
        decrypt_value key row.phone_number_enc row.phone_number_nonce = .ok (some pn) →
        rupd.email = none → rupd.phone_number = none →
        ∃ r1, (Recruitment.modify db key hmac_secret ru rupd nE nP).2.recruitment.find?
            (fun r => r.uuid == ru) = some r1 ∧
          decrypt_value key r1.email_enc r1.email_nonce = .ok (some e) ∧
          decrypt_value key r1.phone_number_enc r1.phone_number_nonce = .ok (some pn)) := by
  constructor
  · intro db2 u upd ns hue hnsE
    constructor
    · unfold Customer.modify
      rw [hue]
      rfl
    · exact encrypt_decrypt_roundtrip key ns.email [] hk hnsE (by decide)
  · intro db ru rupd nE nP row e pn hnE hnP hfind hde hdp hue hup
    have hval := (decrypt_value_ok_some key row.email_enc row.email_nonce e hde).2.2
    have hvalp := (decrypt_value_ok_some key row.phone_number_enc
      row.phone_number_nonce pn hdp).2.2
    have hget : Recruitment.get_by_uuid db key ru =
        .ok { uuid := some row.uuid, full_name := row.full_name,
              email := some e, phone_number := some pn,
              description := row.description, created_by := row.created_by } := by
      unfold Recruitment.get_by_uuid
      simp only [hfind, hde, hdp]
    have hmap := find?_map_if_update (fun r : RecruitmentRow => r.uuid == ru)
      (fun r =>
        { r with full_name := match rupd.full_name with
                              | some v => some v
                              | none => row.full_name,
                 email_enc := (encrypt_value key nE e).1,
                 email_nonce := nE,
                 email_hash := if e.isEmpty = true then none
                               else some (hash_value hmac_secret e),
                 phone_number_enc := (encrypt_value key nP pn).1,
                 phone_number_nonce := nP,
                 phone_number_hash := if pn.isEmpty = true then none
                                      else some (hash_value hmac_secret pn),
                 created_by := match rupd.created_by with
                               | some v => some v
                               | none => row.created_by })
      (fun x => rfl) db.recruitment row hfind
    refine ⟨{ uuid := row.uuid,
              full_name := match rupd.full_name with
                           | some v => some v
                           | none => row.full_name,
              email_enc := (encrypt_value key nE e).1, email_nonce := nE,
              email_hash := if e.isEmpty = true then none
                            else some (hash_value hmac_secret e),
              phone_number_enc := (encrypt_value key nP pn).1,
              phone_number_nonce := nP,
              phone_number_hash := if pn.isEmpty = true then none
                                   else some (hash_value hmac_secret pn),
              description := row.description,
              created_by := match rupd.created_by with
                            | some v => some v
                            | none => row.created_by }, ?_, ?_, ?_⟩
    · unfold Recruitment.modify
      rw [hget]
      simp only [hue, hup]
      exact hmap
    · exact encrypt_decrypt_roundtrip key nE e hk hnE hval
    · exact encrypt_decrypt_roundtrip key nP pn hk hnP hvalp

/-- Witness for the amended C5: modifying the stored recruitment row with
email and phone omitted keeps both fields decryptable to their original
plaintexts. -/
theorem claim_C5_amended_witness :
    ∃ r1, (Recruitment.modify c5rdb exKey exSecret 50 c5rupd exN1 exN2).2.recruitment.find?
        (fun r => r.uuid == 50) = some r1 ∧
      decrypt_value exKey r1.email_enc r1.email_nonce = .ok (some exEmail) ∧
      decrypt_value exKey r1.phone_number_enc r1.phone_number_nonce = .ok (some exPhone) :=
  (claim_C5_amended exKey exSecret (by decide)).2 c5rdb 50 c5rupd exN1 exN2 c5rrow
    exEmail exPhone (by decide) (by decide) (by decide) (by decide) (by decide) rfl rfl

/-- C7 is violated by the code at concrete inputs: resolving a nonexistent
public identifier panics through `Option::unwrap` in `Customer::delete`,
`User::modify_info` and `User::delete`, and `Contract::get_by_uuid` panics
through `parse().unwrap()` on an unrecognised stored enum string — all
user-triggered conditions the claim requires to surface as error
results. -/
theorem claim_C7_panics :
    Customer.delete exDb0 [999] = (.panicked, exDb0) ∧
    User.modify_info exDb0 999 {} = (.panicked, exDb0) ∧
    User.delete exDb0 999 = (.panicked, exDb0) ∧
    Contract.get_by_uuid c7dbBad 5 = .panicked := by
  exact ⟨by decide, by decide, by decide, by decide⟩
